import Mathlib

/-!
# FoodieSpot chatbot: shallow embedding and verification

This file embeds the core of the FoodieSpot restaurant chatbot in Lean 4 and
settles a list of claims about it:

* `ChatbotFunctions.py` — the tool functions (`get_matching_locations`,
  `recommend_restaurants`, `make_reservation`) over the static restaurant
  catalog and the reservation store;
* `chatbot_utils.py` — the response parser (`parse_thinking_response`) and the
  non-streaming orchestration loop (`get_response`) that drives tool calling
  against a completion service.

Conventions of the embedding:

* Python strings are Lean `String`s; `str.lower()` / `str.strip()` are modelled
  by `pyLower` / `pyStrip` below, implemented directly on the character list so
  that every definition evaluates inside the kernel.  (The library
  `String.toLower` / `String.trim` go through `@[extern]` byte-level loops that
  do not reduce.)  Differences are confined to non-ASCII characters, which no
  claim involves.
* The fuzzy matcher (`rapidfuzz`) is an external collaborator; following the
  specification it is treated as a pure scoring function
  `scorer : String → String → Nat` (0–100 scale).  `process.extract` /
  `process.extractOne` are modelled faithfully on top of an arbitrary scorer:
  score every choice in order, sort stably by descending score (ties keep the
  lower index first, as rapidfuzz documents), truncate to the limit.
* The completion service (Ollama `client.chat`) is a black box
  `List Message → Except String ChatResponse`; `Except.error` models a raised
  exception at the call site.
* Python `dict`s returned as `json.dumps(...)` strings are modelled as tagged
  values (`LocResult`, `RecResult`, `ReservationOutcome`) holding exactly the
  fields the source constructs, together with `render` functions that produce
  the serialized text where a claim is about the textual shape.
* Mutation of the module-level reservation list plus the file write in
  `make_reservation` is modelled by returning the new list and a Boolean
  "wrote the durable file" flag.
-/

/-- Python `str.lower()` restricted to ASCII case mapping (`Char.toLower`),
character by character, as `"...".lower()` behaves on the data in this repo. -/
def pyLower (s : String) : String := ⟨s.data.map Char.toLower⟩

/-- Python `str.strip()`: drop leading and trailing whitespace. -/
def pyStrip (s : String) : String :=
  ⟨((s.data.dropWhile Char.isWhitespace).reverse.dropWhile Char.isWhitespace).reverse⟩

/-- Python `sep.join(parts)`. -/
def joinWith (sep : String) : List String → String
  | [] => ""
  | [s] => s
  | s :: rest => s ++ sep ++ joinWith sep rest

/-- Split a character list at the first occurrence of `tag`: returns the part
before the occurrence and the part after it, or `none` when `tag` does not
occur.  This is the primitive under the regex scanning of
`parse_thinking_response`. -/
def breakOnTag (tag : List Char) : List Char → Option (List Char × List Char)
  | [] => if tag = [] then some ([], []) else none
  | c :: cs =>
    if tag.isPrefixOf (c :: cs) then some ([], (c :: cs).drop tag.length)
    else (breakOnTag tag cs).map (fun p => (c :: p.1, p.2))

theorem breakOnTag_occurs {tag : List Char} :
    ∀ {cs pre post : List Char}, breakOnTag tag cs = some (pre, post) → tag <:+: cs := by
  intro cs
  induction cs with
  | nil =>
    intro pre post h
    unfold breakOnTag at h
    split at h
    · simp_all
    · exact absurd h (by simp)
  | cons c cs ih =>
    intro pre post h
    unfold breakOnTag at h
    split at h
    · rename_i hpre
      exact (List.isPrefixOf_iff_prefix.mp hpre).isInfix
    · rw [Option.map_eq_some'] at h
      obtain ⟨⟨p₁, p₂⟩, hrec, -⟩ := h
      exact List.infix_cons (ih hrec)

theorem breakOnTag_suffix {tag : List Char} :
    ∀ {cs pre post : List Char}, breakOnTag tag cs = some (pre, post) → post <:+ cs := by
  intro cs
  induction cs with
  | nil =>
    intro pre post h
    unfold breakOnTag at h
    split at h
    · simp_all
    · exact absurd h (by simp)
  | cons c cs ih =>
    intro pre post h
    unfold breakOnTag at h
    split at h
    · obtain ⟨-, rfl⟩ : pre = [] ∧ (c :: cs).drop tag.length = post := by
        simpa using h
      exact List.drop_suffix _ _
    · rw [Option.map_eq_some'] at h
      obtain ⟨⟨p₁, p₂⟩, hrec, hp⟩ := h
      obtain ⟨-, rfl⟩ : c :: p₁ = pre ∧ p₂ = post := by simpa using hp
      exact (ih hrec).trans (List.suffix_cons c cs)

/-- The `<think>` opening delimiter of the reasoning markup. -/
def thinkOpen : List Char := "<think>".data

/-- The `</think>` closing delimiter of the reasoning markup. -/
def thinkClose : List Char := "</think>".data

/-- One pass of the regex `r"<think>(.*?)</think>"` with `re.DOTALL`:
find the next `<think>`, lazily consume up to the next `</think>`, collect the
captured group, and continue after the match; text outside matches is kept.
An opening tag with no closing tag anywhere after it matches nothing, so the
whole remainder stays in the visible text.  `fuel` only bounds the recursion
and is always supplied as the length of the input, which suffices because each
match consumes at least the two delimiters. -/
def scanThinkAux : Nat → List Char → List (List Char) × List Char
  | 0, cs => ([], cs)
  | fuel + 1, cs =>
    match breakOnTag thinkOpen cs with
    | none => ([], cs)
    | some (pre, rest) =>
      match breakOnTag thinkClose rest with
      | none => ([], cs)
      | some (content, rest2) =>
        let (ms, vis) := scanThinkAux fuel rest2
        (content :: ms, pre ++ vis)

/-- All captured `<think>…</think>` groups of a text, with the visible
remainder (the text with every match deleted). -/
def scanThink (cs : List Char) : List (List Char) × List Char :=
  scanThinkAux cs.length cs

/-- `parse_thinking_response` of `chatbot_utils.py`:
`re.findall(r"<think>(.*?)</think>", text, re.DOTALL)` joined with `"\n\n"`
(`None` when no block matched), and the visible response
`re.sub(pattern, "", text, flags=re.DOTALL).strip()`. -/
def parse_thinking_response (text : String) : Option String × String :=
  let (ms, vis) := scanThink text.data
  (if ms.isEmpty then none else some (joinWith "\n\n" (ms.map String.mk)),
   pyStrip (String.mk vis))

/-! ## Catalog data model (`data/restaurants_data.json` records) -/

/-- The `cuisine` field of a restaurant record is heterogeneous: a single
string, a list of strings, or anything else (which `recommend_restaurants`
skips via its trailing `else: continue`). -/
inductive CuisineField where
  | str (s : String)
  | list (l : List String)
  | other
deriving DecidableEq, Repr

/-- One record of the restaurant catalog, with the fields the embedded tools
read: `name`, `location.area`, `cuisine`, `ambience` (Python reads it with
`.get("ambience", "")`, so a missing field and `""` coincide), and
`seating_capacity`. -/
structure Restaurant where
  name : String
  area : String
  cuisine : CuisineField
  ambience : String
  seating_capacity : Int
deriving DecidableEq, Repr

instance : Inhabited Restaurant := ⟨⟨"", "", CuisineField.other, "", 0⟩⟩

/-- `ChatbotFunctions.MIN_CONFIDENCE_THRESHOLD`. -/
def MIN_CONFIDENCE_THRESHOLD : Nat := 70

/-! ## Fuzzy matching (`rapidfuzz.process` over an abstract scorer)

`fuzz.partial_ratio` is external; per the specification the matcher is a pure
function from (query, choice) to a 0–100 score, abstracted as `scorer`. -/

/-- Score every choice, pairing it with its score and its index in the choice
list (indices start at `k`; `process.extract` numbers from 0). -/
def scoreChoices (scorer : String → String → Nat) (query : String) :
    List String → Nat → List (String × Nat × Nat)
  | [], _ => []
  | c :: cs, k => (c, scorer query c, k) :: scoreChoices scorer query cs (k + 1)

/-- Stable insertion of a scored choice into a list sorted by descending score:
the new element goes before the first strictly lower score, after all earlier
elements with an equal score. -/
def insertScored (x : String × Nat × Nat) :
    List (String × Nat × Nat) → List (String × Nat × Nat)
  | [] => [x]
  | y :: ys => if y.2.1 ≤ x.2.1 then x :: y :: ys else y :: insertScored x ys

/-- Stable sort by descending score.  rapidfuzz sorts extract results by
similarity, preserving choice order among equal scores. -/
def sortScoredDesc : List (String × Nat × Nat) → List (String × Nat × Nat)
  | [] => []
  | x :: xs => insertScored x (sortScoredDesc xs)

/-- `rapidfuzz.process.extract(query, choices, scorer=..., limit=limit)`:
the `limit` best (choice, score, index) triples, scores descending, ties by
choice order. -/
def processExtract (scorer : String → String → Nat) (query : String)
    (choices : List String) (limit : Nat) : List (String × Nat × Nat) :=
  (sortScoredDesc (scoreChoices scorer query choices 0)).take limit

/-- `rapidfuzz.process.extractOne(query, choices, scorer=...)`: the single best
triple (`none` only for an empty choice list). -/
def extractOne (scorer : String → String → Nat) (query : String)
    (choices : List String) : Option (String × Nat × Nat) :=
  (sortScoredDesc (scoreChoices scorer query choices 0)).head?

theorem mem_insertScored {x a : String × Nat × Nat}
    {l : List (String × Nat × Nat)} :
    a ∈ insertScored x l ↔ a = x ∨ a ∈ l := by
  induction l with
  | nil => simp [insertScored]
  | cons y ys ih =>
    unfold insertScored
    split
    · simp
    · simp only [List.mem_cons, ih]
      tauto

theorem mem_sortScoredDesc {a : String × Nat × Nat}
    {l : List (String × Nat × Nat)} :
    a ∈ sortScoredDesc l ↔ a ∈ l := by
  induction l with
  | nil => simp [sortScoredDesc]
  | cons x xs ih => simp [sortScoredDesc, mem_insertScored, ih]

theorem length_insertScored (x : String × Nat × Nat)
    (l : List (String × Nat × Nat)) :
    (insertScored x l).length = l.length + 1 := by
  induction l with
  | nil => simp [insertScored]
  | cons y ys ih =>
    unfold insertScored
    split
    · simp
    · simp [ih]

theorem length_sortScoredDesc (l : List (String × Nat × Nat)) :
    (sortScoredDesc l).length = l.length := by
  induction l with
  | nil => rfl
  | cons x xs ih => simp [sortScoredDesc, length_insertScored, ih]

theorem mem_scoreChoices {scorer : String → String → Nat} {query : String} :
    ∀ {choices : List String} {k : Nat} {e : String × Nat × Nat},
      e ∈ scoreChoices scorer query choices k →
      ∃ j, e.2.2 = k + j ∧ choices.get? j = some e.1 ∧ e.2.1 = scorer query e.1 := by
  intro choices
  induction choices with
  | nil => intro k e h; simp [scoreChoices] at h
  | cons c cs ih =>
    intro k e h
    unfold scoreChoices at h
    rcases List.mem_cons.mp h with rfl | h
    · exact ⟨0, by simp⟩
    · obtain ⟨j, hidx, hget, hsc⟩ := ih h
      exact ⟨j + 1, by omega, by simpa using hget, hsc⟩

theorem scoreChoices_of_get? {scorer : String → String → Nat} {query : String} :
    ∀ {choices : List String} {j k : Nat} {c : String},
      choices.get? j = some c →
      (c, scorer query c, k + j) ∈ scoreChoices scorer query choices k := by
  intro choices
  induction choices with
  | nil => intro j k c h; simp at h
  | cons c₀ cs ih =>
    intro j k c h
    match j with
    | 0 =>
      obtain rfl : c₀ = c := by simpa using h
      simp [scoreChoices]
    | j + 1 =>
      have hrec := @ih j (k + 1) c (by simpa using h)
      have hidx : k + (j + 1) = (k + 1) + j := by omega
      unfold scoreChoices
      right
      rw [hidx]
      exact hrec

theorem length_scoreChoices (scorer : String → String → Nat) (query : String) :
    ∀ (choices : List String) (k : Nat),
      (scoreChoices scorer query choices k).length = choices.length := by
  intro choices
  induction choices with
  | nil => intro k; rfl
  | cons c cs ih => intro k; simp [scoreChoices, ih]

/-- Python in-range list indexing `l[i]` (the tools only index with indices
produced by `process.extract`, which are always in range; the fallback default
mirrors nothing in the source and is never reached there). -/
def pyIndex {α : Type} : List α → Nat → α → α
  | [], _, d => d
  | x :: _, 0, _ => x
  | _ :: xs, n + 1, d => pyIndex xs n d

theorem pyIndex_of_get? {α : Type} :
    ∀ {l : List α} {i : Nat} {x : α} (d : α), l.get? i = some x → pyIndex l i d = x := by
  intro l
  induction l with
  | nil => intro i x d h; simp at h
  | cons y ys ih =>
    intro i x d h
    match i with
    | 0 =>
      obtain rfl : y = x := by simpa using h
      rfl
    | i + 1 => exact ih d (by simpa using h)

/-! ## `ChatbotFunctions.get_matching_locations` -/

/-- The value returned by `get_matching_locations`, which is *either* a bare
Python f-string (the zero-candidates branch returns the message directly, not
a JSON object) *or* the `json.dumps` of the success dict; `render` below
produces the exact returned text.  The `except` branch of the source wraps
unexpected exceptions; the embedded operations are total, so it has no
counterpart here. -/
inductive LocResult where
  | plain (msg : String)
  | success (message : String) (locations : List String)
deriving DecidableEq, Repr

/-- `json.dumps` of a string value (the catalog data contains no characters
that need escaping). -/
def jsonQuote (s : String) : String := "\"" ++ s ++ "\""

/-- `json.dumps` of a list of strings. -/
def jsonStringArray (l : List String) : String :=
  "[" ++ joinWith ", " (l.map jsonQuote) ++ "]"

/-- The exact text `get_matching_locations` returns for each result shape. -/
def LocResult.render : LocResult → String
  | .plain msg => msg
  | .success message locations =>
      "\x7b" ++ jsonQuote "status" ++ ": " ++ jsonQuote "success" ++ ", " ++
        jsonQuote "message" ++ ": " ++ jsonQuote message ++ ", " ++
        jsonQuote "locations" ++ ": " ++ jsonStringArray locations ++ ", " ++
        jsonQuote "instruction" ++ ": " ++
        jsonQuote "Show these locations as numbered options and ask user to select one" ++
        "\x7d"

/-- `ChatbotFunctions.get_matching_locations(area, top_n=5)`: fuzzy-rank every
catalog area (one candidate per restaurant, not deduplicated) against `area`,
keep the `top_n` best, drop candidates under `MIN_CONFIDENCE_THRESHOLD`; with
no survivor return the bare "not found" message, otherwise the success payload
whose `locations` are the survivors' area names (read back through the
(area, place) pair list by extract index). -/
def get_matching_locations (scorer : String → String → Nat)
    (catalog : List Restaurant) (area : String) (top_n : Nat) : LocResult :=
  let area_place_pairs := catalog.map (fun place => (place.area, place))
  let areas := area_place_pairs.map (fun pair => pair.1)
  let top_matches := processExtract scorer area areas top_n
  let filtered_matches :=
    top_matches.filter (fun m => MIN_CONFIDENCE_THRESHOLD ≤ m.2.1)
  if filtered_matches.isEmpty then
    LocResult.plain ("No FoodieSpot locations found matching '" ++ area ++
      "'. Please try a different area name or check spelling.")
  else
    let results := filtered_matches.map
      (fun m => ((pyIndex area_place_pairs m.2.2 default).2.area, m.2.1))
    let area_names := results.map (fun r => r.1)
    LocResult.success ("Found " ++ toString results.length ++
      " matching FoodieSpot locations") area_names

/-! ## `ChatbotFunctions.make_reservation` -/

/-- A record of `data/reservations_data.json`, as `make_reservation` builds it. -/
structure ReservationRecord where
  restaurant : String
  name : String
  phone_number : String
  headcount : Int
  hour : Int
  minute : Int
deriving DecidableEq, Repr

/-- The distinct JSON payloads `make_reservation` can return, one constructor
per `return json.dumps(...)` site of the source. -/
inductive ReservationOutcome where
  | missingDetails
  | invalidRestaurant
  | invalidPhone
  | invalidHeadcount
  | capacityExceeded (capacity : Int)
  | invalidTimeSlot
  | invalidHour
  | invalidMinute
  | booked (record : ReservationRecord)
deriving DecidableEq, Repr

/-- The `error` string of each failure payload (`none` for success), exactly as
in the source. -/
def ReservationOutcome.errorText : ReservationOutcome → Option String
  | .missingDetails => some ("Need the following details to make reservation: " ++
      "name, phone number, head count and time slot. Ask the user for these details.")
  | .invalidRestaurant => some "Invalid restaurant name. Please choose a valid FoodieSpot location."
  | .invalidPhone => some "Invalid phone number. It must be a 10-digit number."
  | .invalidHeadcount => some "Invalid headcount. It must be a positive number."
  | .capacityExceeded cap =>
      some ("Requested headcount exceeds seating capacity of " ++ toString cap ++ ".")
  | .invalidTimeSlot => some "Missing or invalid time_slot."
  | .invalidHour => some "Invalid 'hour' in time_slot. Must be between 0 and 23."
  | .invalidMinute => some "Invalid 'minute' in time_slot. Must be between 0 and 59."
  | .booked _ => none

/-- `re.fullmatch(r"\d{10}", phone_number)` on a string: exactly ten digits. -/
def isTenDigits (s : String) : Bool :=
  s.length == 10 && s.data.all Char.isDigit

/-- `ChatbotFunctions.make_reservation(restaurant, name, phone_number,
headcount, time_slot)`.

The result is the outcome, the reservation list after the call
(`cls.__reservations_data`), and whether the durable file
`./data/reservations_data.json` was rewritten.

`time_slot` is `none` when the argument is not a dict; otherwise the optional
`hour` / `minute` entries (`.get` returning `None` is `none`; Python's
`isinstance(·, int)` check is carried by the `Option Int` type).  `headcount`
is typed `Int`; its `isinstance(headcount, int)` guard is likewise carried by
the type. -/
def make_reservation (catalog : List Restaurant)
    (reservations : List ReservationRecord)
    (restaurant name phone_number : String) (headcount : Int)
    (time_slot : Option (Option Int × Option Int)) :
    ReservationOutcome × List ReservationRecord × Bool :=
  if pyLower name == "user" || pyLower phone_number == "user" then
    (ReservationOutcome.missingDetails, reservations, false)
  else
    match catalog.find? (fun r => r.name == restaurant) with
    | none => (ReservationOutcome.invalidRestaurant, reservations, false)
    | some matching_restaurant =>
      if !isTenDigits phone_number then
        (ReservationOutcome.invalidPhone, reservations, false)
      else if headcount ≤ 0 then
        (ReservationOutcome.invalidHeadcount, reservations, false)
      else if matching_restaurant.seating_capacity < headcount then
        (ReservationOutcome.capacityExceeded matching_restaurant.seating_capacity,
         reservations, false)
      else
        match time_slot with
        | none => (ReservationOutcome.invalidTimeSlot, reservations, false)
        | some (hour?, minute?) =>
          match hour? with
          | none => (ReservationOutcome.invalidHour, reservations, false)
          | some hour =>
            if !(0 ≤ hour && hour ≤ 23) then
              (ReservationOutcome.invalidHour, reservations, false)
            else
              match minute? with
              | none => (ReservationOutcome.invalidMinute, reservations, false)
              | some minute =>
                if !(0 ≤ minute && minute ≤ 59) then
                  (ReservationOutcome.invalidMinute, reservations, false)
                else
                  let new_reservation : ReservationRecord :=
                    ⟨restaurant, name, phone_number, headcount, hour, minute⟩
                  (ReservationOutcome.booked new_reservation,
                   reservations ++ [new_reservation], true)

/-! ## `ChatbotFunctions.recommend_restaurants` -/

/-- Python truthiness of an optional-string tool argument (`if cuisine:` /
`if ambience:`): present and non-empty. -/
def pyTruthy : Option String → Bool
  | none => false
  | some s => !(s == "")

/-- The ambience pre-resolution step of `recommend_restaurants`: when an
ambience was given (truthy), collect the truthy `ambience` field of every
restaurant (one entry per restaurant, no deduplication), take the single best
fuzzy match, and keep it only at or above `MIN_CONFIDENCE_THRESHOLD`;
otherwise `matched_ambience` stays `None`. -/
def matchedAmbience (scorer : String → String → Nat)
    (catalog : List Restaurant) (ambience : Option String) : Option String :=
  if pyTruthy ambience then
    let all_ambiences := catalog.filterMap
      (fun r => if r.ambience == "" then none else some r.ambience)
    if all_ambiences.isEmpty then none
    else
      match extractOne scorer (ambience.getD "") all_ambiences with
      | none => none
      | some best_match =>
        if MIN_CONFIDENCE_THRESHOLD ≤ best_match.2.1 then some best_match.1
        else none
  else none

/-- The per-restaurant cuisine filter: `cuisine.lower().strip()` must be among
the restaurant's normalized cuisine labels; a cuisine field that is neither a
string nor a list makes the loop `continue` (filter out). -/
def cuisineMatches (cuisine : String) : CuisineField → Bool
  | .str s => pyStrip (pyLower cuisine) == pyStrip (pyLower s)
  | .list l => (l.map (fun c => pyStrip (pyLower c))).contains (pyStrip (pyLower cuisine))
  | .other => false

/-- The body of the `for restaurant in cls.__restaurants_data` loop of
`recommend_restaurants`, as the predicate deciding whether a restaurant is
appended to `recommendations`: area must match case-insensitively; with a
truthy `cuisine` the cuisine must match; with a truthy `ambience` *and* a
resolved `matched_ambience` the ambience must match up to case and surrounding
whitespace (with no resolved match the ambience filter is skipped). -/
def keepRestaurant (area : String) (cuisine ambience matched : Option String)
    (r : Restaurant) : Bool :=
  (pyLower r.area == pyLower area) &&
  (if pyTruthy cuisine then cuisineMatches (cuisine.getD "") r.cuisine else true) &&
  (if pyTruthy ambience && matched.isSome then
     pyStrip (pyLower r.ambience) == pyStrip (pyLower (matched.getD ""))
   else true)

/-- The three shapes of `recommend_restaurants` results, one per
`return json.dumps(...)` site (the success constructor holds the payload
fields in source order; `cuisineField` / `ambienceField` are the optional
`result["cuisine"]` / `result["ambience"]` entries). -/
inductive RecResult where
  | areaNotFound (msg : String)
  | noMatches (msg : String)
  | success (area : String) (restaurants : List Restaurant) (count : Nat)
      (cuisineField : Option String) (ambienceField : Option String)
deriving DecidableEq, Repr

/-- The message of the empty-recommendations branch, including the applied
filters: the raw cuisine, and the *resolved* ambience when one exists, else
the raw ambience with the "(no close match found)" note. -/
def noMatchMessage (area : String) (cuisine ambience matched : Option String) :
    String :=
  let filters : List String :=
    (if pyTruthy cuisine then ["serving '" ++ cuisine.getD "" ++ "' cuisine"]
     else []) ++
    (if pyTruthy ambience && matched.isSome then
       ["with '" ++ matched.getD "" ++ "' ambience"]
     else if pyTruthy ambience && !matched.isSome then
       ["with '" ++ ambience.getD "" ++ "' ambience (no close match found)"]
     else [])
  let filter_msg := if filters.isEmpty then "" else " " ++ joinWith " and " filters
  "No restaurants found in '" ++ area ++ "'" ++ filter_msg ++ "."

/-- `ChatbotFunctions.recommend_restaurants(area, cuisine=None, ambience=None)`:
resolve a truthy ambience to the best catalog label first, then filter the
catalog by exact (case-insensitive) area, optional cuisine, and — only when a
resolution succeeded — the resolved ambience; distinguish the area-not-found
failure from the empty-recommendations failure; on success report the full
matching records, their count, the raw cuisine filter, and the *resolved*
ambience label. -/
def recommend_restaurants (scorer : String → String → Nat)
    (catalog : List Restaurant) (area : String)
    (cuisine : Option String) (ambience : Option String) :
    RecResult :=
  let matched := matchedAmbience scorer catalog ambience
  let recommendations := catalog.filter (keepRestaurant area cuisine ambience matched)
  let area_found := catalog.any (fun r => pyLower r.area == pyLower area)
  if !area_found then
    RecResult.areaNotFound ("Area '" ++ area ++
      "' not found. Please use get_matching_locations first.")
  else if recommendations.isEmpty then
    RecResult.noMatches (noMatchMessage area cuisine ambience matched)
  else
    RecResult.success area recommendations recommendations.length
      (if pyTruthy cuisine then cuisine else none)
      (if pyTruthy ambience && matched.isSome then matched else none)

/-! ## Orchestration loop (`chatbot_utils.get_response`) -/

/-- `chatbot_utils.MAX_TOOL_CALLS_PER_CONVERSATION`. -/
def MAX_TOOL_CALLS_PER_CONVERSATION : Nat := 5

/-- `chatbot_utils.CONTEXT_WINDOW_LIMIT`. -/
def CONTEXT_WINDOW_LIMIT : Nat := 20

/-- `chatbot_utils.SYSTEM_PROMPT`, the system instruction message content. -/
def SYSTEM_PROMPT : String := "
/no_think
You are DineMate, a restaurant assistant for FoodieSpot chain in Bengaluru.

Core Function
Help users find FoodieSpot restaurants and make reservations.

Essential Rules
1. **Location is required** - You cannot recommend a restaurant without first having known the location in Bengaluru. The user might not always have a preferred location so guide him by showing locations he may be interested by using tools accordingly
2. **Verify with tools** - Use `get_matching_locations` to confirm FoodieSpot exists there
3. **Never guess** - Only use tool results, never make up information
4. **Empty results = inform user** - If no results, say so and suggest alternatives
5. **Never indicate ongoing process** - DO NOT respond like: \"Let me check the cuisines available at FoodieSpot locations in XYZ. One moment!\" This is incorrect. It means you are meant to make a tool call and you skipped it. This will irritate the user. Always make tool calls to get the relevant information before making the final response.
6. **Find alternatives** - If a cuisine that a user is interested in is not served at a location, ALWAYS try to find locations that DO serve that cuisine and let the user know about it. DO NOT leave the user asking for more information, try to obtain it automatically.
7. **Do not skip tool calls** - DO NOT SKIP tool calls as the user progresses with the chat. You must use tool calls to fetch latest data when user changes his mind about the cuisine, location or even ambience.

Available Tools
- `get_matching_locations` - Check if FoodieSpot is in their area
- `get_cuisine_by_area` - Show cuisines available in confirmed area
- `get_all_cuisines` - List all cuisines across Bengaluru
- `get_area_by_cuisine` - Find areas with specific cuisine
- `get_area_by_ambience` - Find areas with specific ambience
- `get_ambience_by_area` - Show ambience available in confirmed area
- `get_all_ambiences` - List all ambiences across Bengaluru
- `recommend_restaurants` - Get restaurant recommendations (area is required for this but ambience and cuisine are optional)

Feel free to make sequential tool calls (one tool call after another) to obtain next piece of information so as to better help the user without the user asking explicitly. That makes you a better restaurant assistant.

Response Style
- Friendly but direct
- Use numbered lists for options
- Confirm choices before next step
- For simple greetings (\"hi\", \"thanks\"), respond briefly without tools
- If tools return nothing, be honest about it

Introduction
- Tell about yourself in your greeting message
- When asked what can you do, specify all the functionalities you have and how that benefits the user (DO NOT mention name of tools to user)
- Try to greet the user in a unique way each time
- Guide the user towards picking a restaurant, ask if they want to dine at a location or if they are in the mood for having a specific type of cuisine
- The user can also look up ambiences in the city and pick a reservation according to that

Reservation making process
- Always show the full restaurant data by using the `recommend_restaurant` tool before asking the user whether they want to make a reservation there. 
- You need the following data to make a reservation for the user:
    * The name of the FoodieSpot joint the user wishes to make a reservation at. Ensure it is the one the user wishes to dine at. Infer this from the conversation.
    * The full name of the user.
    * The phone number of the user. (Must be exactly 10 digits long)
    * The number of people who will be dining.
    * The time slot for which the user is making a booking at the restaurant. Must be 24-hour time only. If unclear, ask the user to specify AM or PM. Convert to 24-hour time format on your own if the user mentions in 12 hour format.
- Ask these questions one-by-one and once everything is collected, use the `make_reservation` tool to complete the job.

Key Reminder
You only know what tools tell you. If unsure, use tools or ask for clarification.
"

/-- One tool-call request inside a completion response
(`tool_call["function"]["name"]` and `tool_call["function"]["arguments"]`;
arguments stay an opaque serialized mapping, decoded inside the tool body
model). -/
structure ToolCall where
  name : String
  arguments : String
deriving DecidableEq, Repr

/-- One conversation message dict: `role`, `content`, the `tool_calls` list of
assistant messages (empty when absent), and the `name` tag of tool messages. -/
structure Message where
  role : String
  content : String
  tool_calls : List ToolCall := []
  name : Option String := none
deriving DecidableEq, Repr

/-- The `res["message"]` part of a completion-service reply: optional
`content` (`none` models a missing key) and the `tool_calls` list (an absent
key and an empty/falsy list behave identically in every use site, so both are
the empty list). -/
structure ChatResponse where
  content : Option String := none
  tool_calls : List ToolCall := []
deriving DecidableEq, Repr

/-- `chatbot_utils.manage_context_window`: keep only the last
`CONTEXT_WINDOW_LIMIT` messages. -/
def manage_context_window (messages : List Message) : List Message :=
  if messages.length ≤ CONTEXT_WINDOW_LIMIT then messages
  else messages.drop (messages.length - CONTEXT_WINDOW_LIMIT)

/-- The advisor-recommendations system message built by
`inject_advisor_after_user_message`. -/
def advisorMessage (recommendations : String) : Message :=
  { role := "system",
    content := "=== TOOL CALL ADVISOR RECOMMENDATIONS ===\n" ++ recommendations ++
      "\n\nImportant: These are suggestions based on conversation analysis. Use your judgment to decide which tools to call and when. The recommendations are meant to help you provide complete and helpful responses without missing important tool calls.\n===" }

/-- `chatbot_utils.inject_advisor_after_user_message`: despite its name, it
*appends* the advisor system message at the end of the list (after the whole
history); an empty list is returned untouched. -/
def inject_advisor_after_user_message (messages : List Message)
    (recommendations : String) : List Message :=
  match messages with
  | [] => []
  | _ => messages ++ [advisorMessage recommendations]

/-- The outbound list of the first completion call of `get_response`: the
`SYSTEM_PROMPT` system message, the window-limited history, then the injected
advisor system message. -/
def initialOutbound (messages : List Message) (recommendations : String) :
    List Message :=
  inject_advisor_after_user_message
    ({ role := "system", content := SYSTEM_PROMPT } :: manage_context_window messages)
    recommendations

/-- The names under which tools are advertised to the model: the keys of
`ChatbotFunctions.__descriptions_all` (what `get_descriptions` exposes and
`get_response` passes as `tools=`). -/
def registryToolNames : List String :=
  ["get_matching_locations", "get_cuisine_by_area", "get_all_cuisines",
   "get_area_by_cuisine", "get_area_by_ambience", "get_ambience_by_area",
   "get_all_ambiences", "recommend_restaurants", "make_reservation"]

/-- Execution of one tool call inside `get_response`'s `for tool_call in ...`
loop, i.e. its `try`/`except` body:

* `chosen_fn = getattr(ChatFn, function_name)` — modelled by `getattrFn`, the
  attribute table of the class: `none` is an `AttributeError` (whose Python
  `str` is hard-coded here), `some f` a resolved callable;
* `fn_res = chosen_fn(**params)` — `f tc.arguments`, where `Except.error`
  models any exception raised while decoding arguments or running the body;
* on success a tool-role message with `str(fn_res)` is appended; on any
  exception the message `f"Error: Tool execution error for {name}: {e}"` is
  appended instead.  No exception escapes this per-call handler. -/
def runToolCall (getattrFn : String → Option (String → Except String String))
    (tc : ToolCall) : Message :=
  match getattrFn tc.name with
  | none =>
      { role := "tool",
        content := "Error: Tool execution error for " ++ tc.name ++
          ": type object 'ChatbotFunctions' has no attribute '" ++ tc.name ++ "'",
        name := some tc.name }
  | some f =>
      match f tc.arguments with
      | Except.ok r => { role := "tool", content := r, name := some tc.name }
      | Except.error e =>
          { role := "tool",
            content := "Error: Tool execution error for " ++ tc.name ++ ": " ++ e,
            name := some tc.name }

/-- `getattr(ChatbotFunctions, ·)`: the class's public callable attributes are
the nine registered tool classmethods *plus* `get_descriptions` — `getattr`
resolves any of them, registry or not; every other name raises
`AttributeError`.  The bodies are supplied as a table because their results
travel back only as strings. -/
def chatFnGetattr (bodies : String → String → Except String String) :
    String → Option (String → Except String String) :=
  fun n =>
    if n ∈ registryToolNames || n == "get_descriptions" then some (bodies n)
    else none

/-- Result of one run of `get_response`: the returned string, the final
`tool_call_count`, and (for stating properties about what was sent upstream)
the trace of every outbound message list passed to `client.chat`. -/
structure RunResult where
  response : String
  tool_call_count : Nat
  sent : List (List Message)
deriving Repr

/-- Result of the `while` loop of `get_response` (same components; `messages`
is the final `formatted_messages`). -/
structure LoopResult where
  response : String
  tool_call_count : Nat
  messages : List Message
  sent : List (List Message)
deriving Repr

/-- The follow-up-failure text of `get_response`. -/
def followupErrorMessage : String :=
  "I encountered an error processing your request. Please try again."

/-- The budget-exceeded text of `get_response`. -/
def budgetExceededMessage : String :=
  "I've reached the maximum number of tool calls for this conversation. Please start a new conversation or rephrase your request."

/-- The `while` loop of `get_response`:

```text
while "message" in res and "tool_calls" in res["message"]
      and res["message"]["tool_calls"]
      and tool_call_count < MAX_TOOL_CALLS_PER_CONVERSATION:
```

append the assistant tool-call message, then one tool message per requested
call, re-invoke the completion service, and either break with its non-empty
content, break with `followupErrorMessage` if it raised, or loop.  `gas` makes
the recursion structural; it is always called with
`gas = MAX_TOOL_CALLS_PER_CONVERSATION - tool_call_count`, so the `gas = 0`
case (returning the loop state unchanged, like the guard) is never reached
before the guard itself stops the loop. -/
def toolLoop (svc : List Message → Except String ChatResponse)
    (getattrFn : String → Option (String → Except String String)) :
    Nat → List Message → ChatResponse → String → Nat → LoopResult
  | gas, msgs, res, response, count =>
    if res.tool_calls = [] ∨ MAX_TOOL_CALLS_PER_CONVERSATION ≤ count then
      ⟨response, count, msgs, []⟩
    else
      match gas with
      | 0 => ⟨response, count, msgs, []⟩
      | gas' + 1 =>
        let count' := count + 1
        let msgs' := msgs ++
          ({ role := "assistant", content := res.content.getD "",
             tool_calls := res.tool_calls } ::
           res.tool_calls.map (runToolCall getattrFn))
        match svc msgs' with
        | Except.error _ => ⟨followupErrorMessage, count', msgs', [msgs']⟩
        | Except.ok res' =>
          if res'.content.getD "" ≠ "" then
            ⟨res'.content.getD "", count', msgs', [msgs']⟩
          else
            let rest := toolLoop svc getattrFn gas' msgs' res' response count'
            ⟨rest.response, rest.tool_call_count, rest.messages, msgs' :: rest.sent⟩

/-- `chatbot_utils.get_response(messages)`, instrumented with the outbound
trace.

* `svc` is the completion service (`client.chat` with the fixed model, tools
  and options); an `Except.error` is a raised exception.
* `getattrFn` is the tool-dispatch table (see `runToolCall`).
* `recommendations` is the string produced by the advisor agent
  (`get_tool_call_recommendations` has its own `try`/`except` and always
  returns a string).

The outer `try`/`except` of the source converts an exception of the initial
completion call into the returned text `f"Error: {e}"`.  A first response
without tool calls returns its content (empty string for a missing key).
Otherwise the `while` loop runs; afterwards, exactly when the budget was
reached and no response text was captured, the fixed budget-exceeded message
is returned. -/
def getResponseRun (svc : List Message → Except String ChatResponse)
    (getattrFn : String → Option (String → Except String String))
    (messages : List Message) (recommendations : String) : RunResult :=
  let formatted_messages := initialOutbound messages recommendations
  match svc formatted_messages with
  | Except.error e => ⟨"Error: " ++ e, 0, [formatted_messages]⟩
  | Except.ok res =>
    if res.tool_calls = [] then
      ⟨res.content.getD "", 0, [formatted_messages]⟩
    else
      let lr := toolLoop svc getattrFn MAX_TOOL_CALLS_PER_CONVERSATION
        formatted_messages res "" 0
      let response :=
        if MAX_TOOL_CALLS_PER_CONVERSATION ≤ lr.tool_call_count ∧ lr.response = ""
        then budgetExceededMessage else lr.response
      ⟨response, lr.tool_call_count, formatted_messages :: lr.sent⟩

/-- `get_response` proper: the string handed back to the caller. -/
def get_response (svc : List Message → Except String ChatResponse)
    (getattrFn : String → Option (String → Except String String))
    (messages : List Message) (recommendations : String) : String :=
  (getResponseRun svc getattrFn messages recommendations).response

/-! ## Shared concrete fixtures for witnesses and counterexamples -/

/-- A concrete catalog record in the shape of `data/restaurants_data.json`. -/
def demoKoramangala : Restaurant :=
  ⟨"FoodieSpot - Koramangala", "Koramangala",
   CuisineField.list ["South Indian", "North Indian"], "Casual", 40⟩

/-- A one-record concrete catalog. -/
def demoCatalog : List Restaurant := [demoKoramangala]

/-- A scorer assigning similarity 0 everywhere: a query with no fuzzy
near-miss against any candidate. -/
def demoScorerZero : String → String → Nat := fun _ _ => 0

/-- A scorer assigning 100 to an exact match and 0 otherwise — consistent with
`fuzz.partial_ratio` on pairs of distinct short words. -/
def demoScorerExact : String → String → Nat :=
  fun query choice => if query == choice then 100 else 0

/-- A body table for the class attributes reachable by `getattr`:
`get_descriptions` returns the registry's schema-table values (its payload is
modelled by the registered names — only that the call succeeds matters to the
dispatch properties below); the nine tool bodies return a plain string, whose
value none of the orchestration-level properties depends on (the loop treats
tool output as an opaque string to append). -/
def demoBodies : String → String → Except String String :=
  fun n _args =>
    if n == "get_descriptions" then Except.ok (joinWith ", " registryToolNames)
    else Except.ok ""

/-! ## C9 — `parse_thinking_response` -/

/-- The text contains no delimited reasoning segment: the regex
`<think>(.*?)</think>` finds no match.  A match is an opening tag with a
closing tag somewhere after it; any closing tag after a *later* opening tag
is also after the first one, so "no match" is exactly: the first opening tag
(if any) has no closing tag after it.  This covers tag-free texts, texts with
only a stray closing tag, and texts whose segment is opened but never
closed. -/
def noThinkSegment (cs : List Char) : Bool :=
  match breakOnTag thinkOpen cs with
  | none => true
  | some p => (breakOnTag thinkClose p.2).isNone

theorem breakOnTag_some_of_occurs {tag : List Char} :
    ∀ {cs : List Char}, tag <:+: cs → (breakOnTag tag cs).isSome = true := by
  intro cs
  induction cs with
  | nil =>
    intro h
    have htag : tag = [] := by
      obtain ⟨s, t, hst⟩ := h
      simp [List.append_eq_nil] at hst
      exact hst.2.1
    subst htag
    decide
  | cons c cs ih =>
    intro h
    unfold breakOnTag
    split
    · simp
    · rename_i hnp
      have hrest : tag <:+: cs := by
        obtain ⟨s, t, hst⟩ := h
        cases s with
        | nil =>
          exfalso
          apply hnp
          rw [List.isPrefixOf_iff_prefix]
          exact ⟨t, by simpa using hst⟩
        | cons a s' =>
          have hst' : a :: (s' ++ tag ++ t) = c :: cs := by
            simpa [List.append_assoc] using hst
          exact ⟨s', t, (List.cons.injEq _ _ _ _ ▸ hst').2⟩
      have hih := ih hrest
      cases hx : breakOnTag tag cs with
      | none => rw [hx] at hih; simp at hih
      | some p => simp [hx]

theorem breakOnTag_eq_append {tag : List Char} :
    ∀ {cs pre post : List Char}, breakOnTag tag cs = some (pre, post) →
      pre ++ tag ++ post = cs := by
  intro cs
  induction cs with
  | nil =>
    intro pre post h
    unfold breakOnTag at h
    split at h
    · rename_i htag
      obtain ⟨rfl, rfl⟩ : [] = pre ∧ ([] : List Char) = post := by simpa using h
      simp [htag]
    · exact absurd h (by simp)
  | cons c cs ih =>
    intro pre post h
    unfold breakOnTag at h
    split at h
    · rename_i hpre
      obtain ⟨rfl, rfl⟩ : pre = [] ∧ (c :: cs).drop tag.length = post := by
        simpa using h
      rw [List.isPrefixOf_iff_prefix] at hpre
      obtain ⟨t, ht⟩ := hpre
      rw [← ht, List.drop_left]
      simp
    · rw [Option.map_eq_some'] at h
      obtain ⟨⟨p₁, p₂⟩, hrec, hp⟩ := h
      obtain ⟨rfl, rfl⟩ : c :: p₁ = pre ∧ p₂ = post := by simpa using hp
      simpa using ih hrec

theorem scanThinkAux_no_segment {cs : List Char} (h : noThinkSegment cs = true) :
    ∀ fuel, scanThinkAux fuel cs = ([], cs) := by
  intro fuel
  match fuel with
  | 0 => rfl
  | fuel + 1 =>
    unfold noThinkSegment at h
    unfold scanThinkAux
    cases hbo : breakOnTag thinkOpen cs with
    | none => rfl
    | some p =>
      obtain ⟨pre, rest⟩ := p
      simp only [hbo] at h
      cases hbc : breakOnTag thinkClose rest with
      | none => simp [hbc]
      | some q =>
        rw [hbc] at h
        simp at h

theorem suffix_of_suffix_le {α : Type} {l₁ l₂ cs : List α}
    (h₁ : l₁ <:+ cs) (h₂ : l₂ <:+ cs) (hl : l₁.length ≤ l₂.length) :
    l₁ <:+ l₂ := by
  obtain ⟨a, ha⟩ := h₁
  obtain ⟨b, hb⟩ := h₂
  have hab : a ++ l₁ = b ++ l₂ := by rw [ha, hb]
  have hba : b.length ≤ a.length := by
    have := congrArg List.length hab
    simp only [List.length_append] at this
    omega
  refine ⟨a.drop b.length, ?_⟩
  have hd : (a ++ l₁).drop b.length = (b ++ l₂).drop b.length := by rw [hab]
  rw [List.drop_append_of_le_length hba, List.drop_left] at hd
  exact hd

/-- The pass-through property of the scanner: a trailing opened-but-never-
closed segment (an opening tag with no closing tag anywhere after it) is kept
literally in the visible remainder, whatever matches precede it.  The case
analysis mirrors the scan: every closing-tag occurrence the scan can consume
lies strictly before the unterminated tail, because `</think>` neither occurs
in nor straddles into `<think> ++ v` (no non-trivial suffix of `</think>`
starts with `<`). -/
theorem scanThinkAux_tail_passthrough :
    ∀ fuel u v cs, cs = u ++ (thinkOpen ++ v) →
      breakOnTag thinkClose (thinkOpen ++ v) = none →
      (thinkOpen ++ v) <:+ (scanThinkAux fuel cs).2 := by
  intro fuel
  induction fuel with
  | zero =>
    intro u v cs hcs hv
    exact ⟨u, hcs.symm⟩
  | succ fuel ih =>
    intro u v cs hcs hv
    cases hbo : breakOnTag thinkOpen cs with
    | none =>
      exfalso
      have hocc : thinkOpen <:+: cs :=
        ⟨u, v, by rw [hcs]; simp [List.append_assoc]⟩
      have hsome := breakOnTag_some_of_occurs hocc
      rw [hbo] at hsome
      simp at hsome
    | some p =>
      obtain ⟨pre, rest⟩ := p
      cases hbc : breakOnTag thinkClose rest with
      | none =>
        have hstep : scanThinkAux (fuel + 1) cs = ([], cs) := by
          simp only [scanThinkAux, hbo, hbc]
        rw [hstep]
        exact ⟨u, hcs.symm⟩
      | some q =>
        obtain ⟨content, rest2⟩ := q
        rcases hrec : scanThinkAux fuel rest2 with ⟨ms, vis⟩
        have hstep : scanThinkAux (fuel + 1) cs = (content :: ms, pre ++ vis) := by
          simp only [scanThinkAux, hbo, hbc, hrec]
        rw [hstep]
        have hd1 : pre ++ thinkOpen ++ rest = cs := breakOnTag_eq_append hbo
        have hd2 : content ++ thinkClose ++ rest2 = rest := breakOnTag_eq_append hbc
        have hcs3 : (pre ++ thinkOpen ++ content) ++ (thinkClose ++ rest2) = cs := by
          rw [← hd1, ← hd2]
          simp [List.append_assoc]
        have hclen : thinkClose.length = 8 := by decide
        have hTsuffixR : (thinkOpen ++ v) <:+ rest2 := by
          have hTcs : (thinkOpen ++ v) <:+ cs := ⟨u, hcs.symm⟩
          have hRcs : rest2 <:+ cs :=
            ⟨(pre ++ thinkOpen ++ content) ++ thinkClose, by
              simpa [List.append_assoc] using hcs3⟩
          by_cases hlen : (thinkOpen ++ v).length ≤ rest2.length
          · exact suffix_of_suffix_le hTcs hRcs hlen
          · exfalso
            push_neg at hlen
            have hlen1 : cs.length =
                (pre ++ thinkOpen ++ content).length + 8 + rest2.length := by
              have := congrArg List.length hcs3
              simp only [List.length_append, hclen] at this ⊢
              omega
            have hlen2 : cs.length = u.length + (thinkOpen ++ v).length := by
              rw [hcs]
              simp [List.length_append]
            have hT : cs.drop u.length = thinkOpen ++ v := by
              rw [hcs]
              exact List.drop_left u _
            rcases Nat.lt_trichotomy u.length (pre ++ thinkOpen ++ content).length
              with hcase | hcase | hcase
            · -- the closing tag the scan found lies inside the unterminated tail
              have hT2 : cs.drop u.length =
                  (pre ++ thinkOpen ++ content).drop u.length ++
                    (thinkClose ++ rest2) := by
                rw [← hcs3]
                exact List.drop_append_of_le_length (le_of_lt hcase)
              have hocc2 : thinkClose <:+: thinkOpen ++ v := by
                rw [← hT, hT2]
                exact ⟨(pre ++ thinkOpen ++ content).drop u.length, rest2, by
                  simp [List.append_assoc]⟩
              have hsome := breakOnTag_some_of_occurs hocc2
              rw [hv] at hsome
              simp at hsome
            · -- the closing tag starts exactly at the tail: it is a prefix of it
              have hT2 : cs.drop u.length = thinkClose ++ rest2 := by
                rw [hcase, ← hcs3]
                exact List.drop_left _ _
              have hocc2 : thinkClose <:+: thinkOpen ++ v := by
                rw [← hT, hT2]
                exact ⟨[], rest2, by simp⟩
              have hsome := breakOnTag_some_of_occurs hocc2
              rw [hv] at hsome
              simp at hsome
            · -- the closing tag would straddle into the tail: impossible, since
              -- no proper suffix of `</think>` starts with `<`
              have htk : u.length < (pre ++ thinkOpen ++ content).length + 8 := by
                omega
              have hu : u.length = (pre ++ thinkOpen ++ content).length +
                  (u.length - (pre ++ thinkOpen ++ content).length) := by omega
              have hT2 : cs.drop u.length =
                  thinkClose.drop
                    (u.length - (pre ++ thinkOpen ++ content).length) ++ rest2 := by
                conv_lhs => rw [← hcs3, hu, List.drop_append]
                exact List.drop_append_of_le_length (by rw [hclen]; omega)
              have hhead : (thinkOpen ++ v).head? = some '<' := by
                have ho : thinkOpen = '<' :: "think>".data := by decide
                rw [ho]
                rfl
              have heq : some '<' =
                  (thinkClose.drop
                    (u.length - (pre ++ thinkOpen ++ content).length) ++
                      rest2).head? := by
                rw [← hT2, hT, hhead]
              have e1 : thinkClose.drop 1 = '/' :: "think>".data := by decide
              have e2 : thinkClose.drop 2 = 't' :: "hink>".data := by decide
              have e3 : thinkClose.drop 3 = 'h' :: "ink>".data := by decide
              have e4 : thinkClose.drop 4 = 'i' :: "nk>".data := by decide
              have e5 : thinkClose.drop 5 = 'n' :: "k>".data := by decide
              have e6 : thinkClose.drop 6 = 'k' :: ">".data := by decide
              have e7 : thinkClose.drop 7 = '>' :: ([] : List Char) := by decide
              set m := u.length - (pre ++ thinkOpen ++ content).length with hm
              have hm1 : 1 ≤ m := by omega
              have hm2 : m ≤ 7 := by omega
              interval_cases m <;>
                simp [e1, e2, e3, e4, e5, e6, e7, List.cons_append] at heq
        obtain ⟨u', hu'⟩ := hTsuffixR
        have hvis := ih u' v rest2 hu'.symm hv
        rw [hrec] at hvis
        obtain ⟨w, hw⟩ := hvis
        have hw' : w ++ (thinkOpen ++ v) = vis := hw
        refine ⟨pre ++ w, ?_⟩
        show pre ++ w ++ (thinkOpen ++ v) = pre ++ vis
        rw [List.append_assoc, hw']

/-- C9 (counterexample): the claim says an input with no delimited reasoning
segment is returned *unchanged* as the visible response; but `get_response`'s
parser applies `.strip()`, so `" Hello there "` (no `<think>` at all) comes
back as `"Hello there"`, not unchanged. -/
theorem c9_counterexample :
    breakOnTag thinkOpen " Hello there ".data = none ∧
    parse_thinking_response " Hello there " = (none, "Hello there") ∧
    "Hello there" ≠ " Hello there " := by decide

/-- C9 (amended): for every input containing no delimited reasoning segment —
the first opening tag, if any, has no closing tag after it, which covers
tag-free inputs, inputs with a stray closing tag only, and inputs whose
segment is opened but never closed — `parse_thinking_response` returns no
reasoning content and the input text with leading/trailing whitespace
stripped as the visible response (so the input comes back unchanged exactly
when it carries no leading/trailing whitespace, and an unterminated opened
segment is passed through literally rather than consumed).  Moreover, for
*every* input ending in an opened-but-never-closed segment — even after
earlier complete segments — the unterminated opening tag and its trailing
text survive literally as a suffix of the visible remainder, of which the
returned visible response is the stripped form.  The embedded function is
total, so it returns such a (reasoning, visible) pair for every input without
raising. -/
theorem c9_strip_and_passthrough (text : String) :
    (noThinkSegment text.data = true →
      parse_thinking_response text = (none, pyStrip text)) ∧
    (∀ u v, text.data = u ++ (thinkOpen ++ v) →
      breakOnTag thinkClose (thinkOpen ++ v) = none →
      (thinkOpen ++ v) <:+ (scanThink text.data).2 ∧
      (parse_thinking_response text).2 =
        pyStrip (String.mk (scanThink text.data).2)) := by
  constructor
  · intro h
    unfold parse_thinking_response scanThink
    rw [scanThinkAux_no_segment h]
    rfl
  · intro u v hdec hv
    refine ⟨scanThinkAux_tail_passthrough text.data.length u v text.data hdec hv, ?_⟩
    rcases he : scanThink text.data with ⟨ms, vis⟩
    simp only [parse_thinking_response, he]

/-- Witness for `c9_strip_and_passthrough`: the first part at an input whose
only tag is a stray closing one (no delimited segment), the second at an
input with one complete segment followed by an unterminated one. -/
theorem c9_strip_and_passthrough_witness :
    parse_thinking_response " bye</think> " = (none, pyStrip " bye</think> ") ∧
    ((thinkOpen ++ "d".data) <:+
        (scanThink "a<think>b</think>c<think>d".data).2 ∧
      (parse_thinking_response "a<think>b</think>c<think>d").2 =
        pyStrip (String.mk (scanThink "a<think>b</think>c<think>d".data).2)) :=
  ⟨(c9_strip_and_passthrough " bye</think> ").1 (by decide),
   (c9_strip_and_passthrough "a<think>b</think>c<think>d").2
     "a<think>b</think>c".data "d".data (by decide) (by decide)⟩

/-! ## C10 — the `"user"` sentinel pre-check of `make_reservation` -/

/-- C10: whenever `name.lower()` or `phone_number.lower()` equals `"user"`,
`make_reservation` fails immediately with the missing-details error — before
restaurant, phone, headcount or time-slot validation can produce any other
outcome, for every catalog and every value of the remaining arguments — and
the reservation store is untouched, so no reservation is ever created under
the literal name `"user"`. -/
theorem c10_user_sentinel (catalog : List Restaurant)
    (reservations : List ReservationRecord)
    (restaurant name phone_number : String) (headcount : Int)
    (time_slot : Option (Option Int × Option Int))
    (h : pyLower name = "user" ∨ pyLower phone_number = "user") :
    make_reservation catalog reservations restaurant name phone_number
      headcount time_slot =
      (ReservationOutcome.missingDetails, reservations, false) := by
  have hc : (pyLower name == "user" || pyLower phone_number == "user") = true := by
    rcases h with h | h <;> simp [h]
  unfold make_reservation
  rw [hc]
  rfl

/-- Witness for `c10_user_sentinel`: every other argument is valid (existing
restaurant, 10-digit phone, headcount within capacity, well-formed slot), yet
the call fails with the missing-details error and appends nothing. -/
theorem c10_user_sentinel_witness :
    pyLower "User" = "user" ∧
    make_reservation demoCatalog [] "FoodieSpot - Koramangala" "User"
      "9876543210" 2 (some (some 19, some 30)) =
      (ReservationOutcome.missingDetails, [], false) :=
  ⟨by decide,
   c10_user_sentinel demoCatalog [] "FoodieSpot - Koramangala" "User"
     "9876543210" 2 (some (some 19, some 30)) (Or.inl (by decide))⟩

/-! ## C2 — `make_reservation` validation order -/

/-- C2 (counterexample): the claim quantifies over *every* call with an
invalid restaurant and a non-10-digit phone and asserts the result is the
invalid-restaurant error; but with `name = "USER"` (a non-10-digit phone
`"12345"` and a restaurant matching no record) the undocumented sentinel
pre-check fires first and the call reports the missing-details error
instead. -/
theorem c2_counterexample :
    demoCatalog.find? (fun r => r.name == "FoodieSpot - Indiranagar") = none ∧
    isTenDigits "12345" = false ∧
    (make_reservation demoCatalog [] "FoodieSpot - Indiranagar" "USER" "12345"
        2 (some (some 19, some 0))).1 = ReservationOutcome.missingDetails ∧
    ReservationOutcome.missingDetails ≠ ReservationOutcome.invalidRestaurant := by
  decide

/-- C2 (amended): provided neither `name` nor `phone_number` lower-cases to
the sentinel `"user"`, a call whose restaurant matches no catalog record
reports the invalid-restaurant error — even when the phone number is
simultaneously invalid (not ten digits): validation short-circuits at the
first failure in the order restaurant, phone, headcount, time slot, and the
store is untouched. -/
theorem c2_first_failure_wins (catalog : List Restaurant)
    (reservations : List ReservationRecord)
    (restaurant name phone_number : String) (headcount : Int)
    (time_slot : Option (Option Int × Option Int))
    (hname : pyLower name ≠ "user") (hphone : pyLower phone_number ≠ "user")
    (hrest : catalog.find? (fun r => r.name == restaurant) = none)
    (_hten : isTenDigits phone_number = false) :
    make_reservation catalog reservations restaurant name phone_number
      headcount time_slot =
      (ReservationOutcome.invalidRestaurant, reservations, false) := by
  have hc : (pyLower name == "user" || pyLower phone_number == "user") = false := by
    simp [hname, hphone]
  unfold make_reservation
  rw [hc, hrest]
  rfl

/-- Witness for `c2_first_failure_wins` at a concrete input. -/
theorem c2_first_failure_wins_witness :
    make_reservation demoCatalog [] "FoodieSpot - Indiranagar" "Jane Doe"
      "12345" 2 (some (some 19, some 0)) =
      (ReservationOutcome.invalidRestaurant, [], false) :=
  c2_first_failure_wins demoCatalog [] "FoodieSpot - Indiranagar" "Jane Doe"
    "12345" 2 (some (some 19, some 0)) (by decide) (by decide) (by decide)
    (by decide)

/-! ## C8 — invalid phone leaves the reservation store unchanged -/

/-- C8 (counterexample): the claim quantifies over *every* call with a valid
restaurant and a non-10-digit phone and asserts the INVALID_PHONE failure;
but the non-10-digit phone `"user"` triggers the sentinel pre-check instead,
so the result is the missing-details error, not INVALID_PHONE (the store is
still unchanged). -/
theorem c8_counterexample :
    isTenDigits "user" = false ∧
    (demoCatalog.find? (fun r => r.name == "FoodieSpot - Koramangala")).isSome = true ∧
    make_reservation demoCatalog [] "FoodieSpot - Koramangala" "Haris" "user"
      4 (some (some 20, some 0)) =
      (ReservationOutcome.missingDetails, [], false) ∧
    ReservationOutcome.missingDetails ≠ ReservationOutcome.invalidPhone := by
  decide

/-- C8 (amended): provided neither `name` nor `phone_number` lower-cases to
the sentinel `"user"`, a call with a restaurant matching a catalog record and
a phone number that is not exactly ten decimal digits fails with
INVALID_PHONE, the in-memory reservation list is returned unchanged, and the
durable file is not written — no partial commit. -/
theorem c8_invalid_phone_no_commit (catalog : List Restaurant)
    (reservations : List ReservationRecord)
    (restaurant name phone_number : String) (headcount : Int)
    (time_slot : Option (Option Int × Option Int)) (mr : Restaurant)
    (hname : pyLower name ≠ "user") (hphone : pyLower phone_number ≠ "user")
    (hrest : catalog.find? (fun r => r.name == restaurant) = some mr)
    (hten : isTenDigits phone_number = false) :
    make_reservation catalog reservations restaurant name phone_number
      headcount time_slot =
      (ReservationOutcome.invalidPhone, reservations, false) := by
  have hc : (pyLower name == "user" || pyLower phone_number == "user") = false := by
    simp [hname, hphone]
  unfold make_reservation
  rw [hc, hrest]
  simp [hten]

/-- Witness for `c8_invalid_phone_no_commit` at the specification's own
example, phone `"12345"`. -/
theorem c8_invalid_phone_no_commit_witness :
    make_reservation demoCatalog [] "FoodieSpot - Koramangala" "Jane Doe"
      "12345" 2 (some (some 19, some 0)) =
      (ReservationOutcome.invalidPhone, [], false) :=
  c8_invalid_phone_no_commit demoCatalog [] "FoodieSpot - Koramangala"
    "Jane Doe" "12345" 2 (some (some 19, some 0)) demoKoramangala (by decide)
    (by decide) (by decide) (by decide)

/-! ## C5 / C6 — `get_matching_locations` -/

theorem processExtract_spec {scorer : String → String → Nat} {query : String}
    {choices : List String} {limit : Nat} {e : String × Nat × Nat}
    (h : e ∈ processExtract scorer query choices limit) :
    choices.get? e.2.2 = some e.1 ∧ e.2.1 = scorer query e.1 := by
  unfold processExtract at h
  have h1 := List.mem_of_mem_take h
  rw [mem_sortScoredDesc] at h1
  obtain ⟨j, hj, hget, hsc⟩ := mem_scoreChoices h1
  have : e.2.2 = j := by omega
  exact ⟨this ▸ hget, hsc⟩

/-- C5 (counterexample): the claim asserts the zero-candidate case returns a
structured `status = "error"` payload with an empty result list; in fact that
branch returns a *bare message string* (the only return site of the function
that is not a `json.dumps` object): rendered, it does not even start with a
brace and contains no `"status"` key at all.  (The soft-failure and
"try a different spelling" parts do hold.) -/
theorem c5_counterexample :
    get_matching_locations demoScorerZero demoCatalog "Atlantis" 5 =
      LocResult.plain "No FoodieSpot locations found matching 'Atlantis'. Please try a different area name or check spelling." ∧
    (LocResult.render
      (get_matching_locations demoScorerZero demoCatalog "Atlantis" 5)).data.head? ≠
      some (Char.ofNat 123) ∧
    breakOnTag "\"status\"".data
      (LocResult.render
        (get_matching_locations demoScorerZero demoCatalog "Atlantis" 5)).data =
      none := by
  set_option maxRecDepth 8000 in decide

/-- C5 (amended): for every query for which no catalog area candidate reaches
the minimum confidence threshold (70), `get_matching_locations` fails softly —
it returns (never raises) the fixed bare message string naming the query and
suggesting a different spelling; the message is returned directly, not as a
`status = "error"` object, and carries no (empty) result list. -/
theorem c5_no_match_soft_failure (scorer : String → String → Nat)
    (catalog : List Restaurant) (area : String) (top_n : Nat)
    (h : ∀ c ∈ catalog.map Restaurant.area, scorer area c < MIN_CONFIDENCE_THRESHOLD) :
    get_matching_locations scorer catalog area top_n =
      LocResult.plain ("No FoodieSpot locations found matching '" ++ area ++
        "'. Please try a different area name or check spelling.") := by
  unfold get_matching_locations
  dsimp only
  split
  · rfl
  · rename_i hne
    exfalso
    apply hne
    rw [List.isEmpty_iff, List.filter_eq_nil_iff]
    intro m hm
    obtain ⟨hget, hsc⟩ := processExtract_spec hm
    have hmem : m.1 ∈ catalog.map Restaurant.area := by
      have := List.get?_mem hget
      simpa [List.map_map] using this
    have hlt := h m.1 hmem
    simp only [decide_eq_true_eq]
    omega

/-- Witness for `c5_no_match_soft_failure` at a concrete query with no
near-miss. -/
theorem c5_no_match_soft_failure_witness :
    get_matching_locations demoScorerZero demoCatalog "Atlantis" 5 =
      LocResult.plain ("No FoodieSpot locations found matching '" ++ "Atlantis" ++
        "'. Please try a different area name or check spelling.") :=
  c5_no_match_soft_failure demoScorerZero demoCatalog "Atlantis" 5 (by decide)

/-- A catalog in which five restaurants share the area "Koramangala East" and
a sixth sits in "Koramangala": area candidates are not deduplicated, so the
five duplicates can crowd the verbatim area out of the top-5. -/
def crowdCatalog : List Restaurant :=
  [⟨"FoodieSpot - KE1", "Koramangala East", CuisineField.list ["Italian"], "Casual", 30⟩,
   ⟨"FoodieSpot - KE2", "Koramangala East", CuisineField.list ["Italian"], "Casual", 30⟩,
   ⟨"FoodieSpot - KE3", "Koramangala East", CuisineField.list ["Italian"], "Casual", 30⟩,
   ⟨"FoodieSpot - KE4", "Koramangala East", CuisineField.list ["Italian"], "Casual", 30⟩,
   ⟨"FoodieSpot - KE5", "Koramangala East", CuisineField.list ["Italian"], "Casual", 30⟩,
   ⟨"FoodieSpot - Koramangala", "Koramangala", CuisineField.list ["Italian"], "Casual", 30⟩]

/-- A scorer consistent with `fuzz.partial_ratio` on the strings of
`crowdCatalog`: the query "Koramangala" is a substring of both "Koramangala"
and "Koramangala East", and `partial_ratio` scores a contained substring
100. -/
def crowdScorer : String → String → Nat :=
  fun query choice =>
    if query == "Koramangala" &&
       (choice == "Koramangala" || choice == "Koramangala East") then 100
    else 0

/-- C6 (counterexample): the claim asserts that a verbatim catalog area is
always among the returned locations "for every catalog, including catalogs
where many restaurants share areas"; but with the default `top_n = 5`, five
equally-scoring earlier candidates (duplicated area strings are kept) fill
the whole top-5 — rapidfuzz breaks ties by choice order — and the verbatim
area "Koramangala", although it scores 100 ≥ 70, is *not* in the success
result. -/
theorem c6_counterexample :
    "Koramangala" ∈ crowdCatalog.map Restaurant.area ∧
    MIN_CONFIDENCE_THRESHOLD ≤ crowdScorer "Koramangala" "Koramangala" ∧
    get_matching_locations crowdScorer crowdCatalog "Koramangala" 5 =
      LocResult.success "Found 5 matching FoodieSpot locations"
        ["Koramangala East", "Koramangala East", "Koramangala East",
         "Koramangala East", "Koramangala East"] ∧
    "Koramangala" ∉
      ["Koramangala East", "Koramangala East", "Koramangala East",
       "Koramangala East", "Koramangala East"] := by
  decide

/-- C6 (amended): for every area `A` that appears verbatim in the catalog and
scores at or above the threshold against itself, `get_matching_locations`
returns a success result containing `A` — provided the catalog has at most
`top_n` records, so that the (non-deduplicated) candidate set cannot crowd
`A` out of the truncated ranking. -/
theorem c6_verbatim_area_included (scorer : String → String → Nat)
    (catalog : List Restaurant) (A : String) (top_n : Nat)
    (hmem : A ∈ catalog.map Restaurant.area)
    (hscore : MIN_CONFIDENCE_THRESHOLD ≤ scorer A A)
    (hlen : catalog.length ≤ top_n) :
    ∃ msg locs, get_matching_locations scorer catalog A top_n =
      LocResult.success msg locs ∧ A ∈ locs := by
  obtain ⟨j, hj⟩ := List.mem_iff_get?.mp hmem
  -- the scored entry of the verbatim candidate
  have hchoices :
      ((catalog.map (fun place => (place.area, place))).map (fun pair => pair.1)).get? j =
        some A := by
    simpa [List.map_map] using hj
  have hentry : (A, scorer A A, j) ∈
      scoreChoices scorer A
        ((catalog.map (fun place => (place.area, place))).map (fun pair => pair.1)) 0 := by
    have := @scoreChoices_of_get? scorer A _ j 0 A hchoices
    simpa using this
  have hextract : (A, scorer A A, j) ∈
      processExtract scorer A
        ((catalog.map (fun place => (place.area, place))).map (fun pair => pair.1)) top_n := by
    unfold processExtract
    rw [List.take_of_length_le]
    · exact mem_sortScoredDesc.mpr hentry
    · rw [length_sortScoredDesc, length_scoreChoices]
      simpa using hlen
  have hfil : (A, scorer A A, j) ∈
      (processExtract scorer A
        ((catalog.map (fun place => (place.area, place))).map (fun pair => pair.1))
        top_n).filter (fun m => MIN_CONFIDENCE_THRESHOLD ≤ m.2.1) := by
    rw [List.mem_filter]
    exact ⟨hextract, by simpa using hscore⟩
  -- the pair list holds (A, r) at index j, and its area re-read is A
  obtain ⟨r, hr, hrA⟩ : ∃ r, catalog.get? j = some r ∧ r.area = A := by
    have := hj
    rw [List.get?_map] at this
    cases hcat : catalog.get? j with
    | none => rw [hcat] at this; simp at this
    | some r =>
      rw [hcat] at this
      exact ⟨r, rfl, by simpa using this⟩
  have hpair :
      (catalog.map (fun place => (place.area, place))).get? j = some (r.area, r) := by
    rw [List.get?_map, hr]
    rfl
  unfold get_matching_locations
  dsimp only
  split
  · rename_i hempty
    exfalso
    rw [List.isEmpty_iff] at hempty
    rw [hempty] at hfil
    simp at hfil
  · refine ⟨_, _, rfl, ?_⟩
    rw [List.mem_map]
    refine ⟨((pyIndex (catalog.map (fun place => (place.area, place))) j default).2.area,
      scorer A A), ?_, ?_⟩
    · rw [List.mem_map]
      exact ⟨(A, scorer A A, j), hfil, rfl⟩
    · rw [pyIndex_of_get? default hpair]
      exact hrA

/-- Witness for `c6_verbatim_area_included` on a catalog small enough for the
guarantee. -/
theorem c6_verbatim_area_included_witness :
    ∃ msg locs, get_matching_locations demoScorerExact demoCatalog "Koramangala" 5 =
      LocResult.success msg locs ∧ "Koramangala" ∈ locs :=
  c6_verbatim_area_included demoScorerExact demoCatalog "Koramangala" 5
    (by decide) (by decide) (by decide)

/-! ## C7 — ambience resolution in `recommend_restaurants` -/

/-- A one-record catalog whose restaurant has the ambience label "Quirky". -/
def c7Catalog : List Restaurant :=
  [⟨"FoodieSpot - Koramangala", "Koramangala", CuisineField.list ["Italian"],
    "Quirky", 30⟩]

theorem matchedAmbience_truthy {scorer : String → String → Nat}
    {catalog : List Restaurant} {ambience : Option String} {label : String}
    (h : matchedAmbience scorer catalog ambience = some label) :
    pyTruthy ambience = true := by
  by_contra hfalse
  rw [Bool.not_eq_true] at hfalse
  unfold matchedAmbience at h
  rw [hfalse] at h
  simp at h

/-- C7 (counterexample): the claim asserts that *every* success result with a
non-empty ambience argument is filtered by (and reports) a resolved canonical
label at or above the threshold; but when no catalog label reaches the
threshold, `matched_ambience` stays `None`, the ambience filter is silently
skipped, and the call still succeeds — returning an unfiltered restaurant
(ambience "Quirky", unrelated to the query "romantic") and *no* applied
ambience field at all. -/
theorem c7_counterexample :
    pyTruthy (some "romantic") = true ∧
    matchedAmbience demoScorerZero c7Catalog (some "romantic") = none ∧
    recommend_restaurants demoScorerZero c7Catalog "Koramangala" none
        (some "romantic") =
      RecResult.success "Koramangala"
        [⟨"FoodieSpot - Koramangala", "Koramangala", CuisineField.list ["Italian"],
          "Quirky", 30⟩] 1 none none := by
  decide

/-- C7 (amended): whenever the non-empty ambience argument *does* resolve to a
best fuzzy match at or above the threshold among the catalog's ambience
labels, every restaurant of a success result has that resolved label as its
ambience (up to case and surrounding whitespace — the filter compares
`.lower().strip()` forms), and the result reports the resolved canonical
label, not the caller's raw input; when nothing reaches the threshold the
filter is skipped and no ambience field is reported. -/
theorem c7_resolved_ambience_filter (scorer : String → String → Nat)
    (catalog : List Restaurant) (area : String)
    (cuisine ambience : Option String) (label : String)
    (a : String) (rs : List Restaurant) (cnt : Nat)
    (cf af : Option String)
    (hm : matchedAmbience scorer catalog ambience = some label)
    (hs : recommend_restaurants scorer catalog area cuisine ambience =
      RecResult.success a rs cnt cf af) :
    af = some label ∧
    ∀ r ∈ rs, pyStrip (pyLower r.ambience) = pyStrip (pyLower label) := by
  have htr : pyTruthy ambience = true := matchedAmbience_truthy hm
  unfold recommend_restaurants at hs
  rw [hm] at hs
  dsimp only at hs
  split at hs
  · exact absurd hs (by simp)
  · split at hs
    · exact absurd hs (by simp)
    · rw [RecResult.success.injEq] at hs
      obtain ⟨-, hrs, -, -, haf⟩ := hs
      constructor
      · rw [← haf, htr]
        rfl
      · intro r hr
        rw [← hrs] at hr
        have hkeep := (List.mem_filter.mp hr).2
        unfold keepRestaurant at hkeep
        rw [htr] at hkeep
        simp only [Option.isSome_some, Bool.and_true, Bool.and_self, if_true,
          Bool.and_eq_true, beq_iff_eq] at hkeep
        simpa using hkeep.2

/-- Witness for `c7_resolved_ambience_filter`: the query "Casual" resolves to
the catalog label "Casual"; the success result reports it and the returned
restaurant carries it. -/
theorem c7_resolved_ambience_filter_witness :
    (some "Casual" : Option String) = some "Casual" ∧
    ∀ r ∈ [demoKoramangala],
      pyStrip (pyLower r.ambience) = pyStrip (pyLower "Casual") :=
  c7_resolved_ambience_filter demoScorerExact demoCatalog "Koramangala" none
    (some "Casual") "Casual" "Koramangala" [demoKoramangala] 1 none
    (some "Casual") (by decide) (by decide)

/-! ## C1 — round budget of the orchestration loop -/

theorem toolLoop_budget (svc : List Message → Except String ChatResponse)
    (getattrFn : String → Option (String → Except String String))
    (h : ∀ l, ∃ res, svc l = Except.ok res ∧ res.tool_calls ≠ [] ∧
      res.content.getD "" = "") :
    ∀ gas count msgs res, gas + count = MAX_TOOL_CALLS_PER_CONVERSATION →
      res.tool_calls ≠ [] →
      (toolLoop svc getattrFn gas msgs res "" count).response = "" ∧
      (toolLoop svc getattrFn gas msgs res "" count).tool_call_count =
        MAX_TOOL_CALLS_PER_CONVERSATION := by
  intro gas
  induction gas with
  | zero =>
    intro count msgs res hsum hne
    unfold toolLoop
    rw [if_pos (Or.inr (by omega))]
    exact ⟨rfl, by simpa using hsum⟩
  | succ gas' ih =>
    intro count msgs res hsum hne
    unfold toolLoop
    rw [if_neg (by push_neg; exact ⟨hne, by omega⟩)]
    dsimp only
    obtain ⟨res', hsvc, hne', hcont⟩ := h (msgs ++
      ({ role := "assistant", content := res.content.getD "",
         tool_calls := res.tool_calls } ::
       res.tool_calls.map (runToolCall getattrFn)))
    rw [hsvc]
    dsimp only
    rw [if_neg (by simp [hcont])]
    dsimp only
    exact ih (count + 1) _ res' (by omega) hne'

/-- C1: against a completion service that on every call returns at least one
tool-call request and no usable content (a missing or empty `content`), the
loop of `get_response` terminates — the embedding is a total function — after
exactly `MAX_TOOL_CALLS_PER_CONVERSATION = 5` tool-execution rounds, and the
returned text is the fixed budget-exceeded message, not an empty result. -/
theorem c1_budget_termination (svc : List Message → Except String ChatResponse)
    (getattrFn : String → Option (String → Except String String))
    (messages : List Message) (recommendations : String)
    (h : ∀ l, ∃ res, svc l = Except.ok res ∧ res.tool_calls ≠ [] ∧
      res.content.getD "" = "") :
    get_response svc getattrFn messages recommendations = budgetExceededMessage ∧
    (getResponseRun svc getattrFn messages recommendations).tool_call_count =
      MAX_TOOL_CALLS_PER_CONVERSATION := by
  obtain ⟨res₀, hsvc, hne, -⟩ := h (initialOutbound messages recommendations)
  have hl := toolLoop_budget svc getattrFn h MAX_TOOL_CALLS_PER_CONVERSATION 0
    (initialOutbound messages recommendations) res₀ (by omega) hne
  unfold get_response getResponseRun
  dsimp only
  rw [hsvc]
  dsimp only
  rw [if_neg hne]
  dsimp only
  rw [if_pos ⟨le_of_eq hl.2.symm, hl.1⟩]
  exact ⟨rfl, hl.2⟩

/-- A stub completion service that always requests a tool call and never
produces content. -/
def stubSvcAlwaysTool : List Message → Except String ChatResponse :=
  fun _ => Except.ok { content := none, tool_calls := [⟨"get_all_cuisines", ""⟩] }

/-- Witness for `c1_budget_termination` with the stub service. -/
theorem c1_budget_termination_witness :
    get_response stubSvcAlwaysTool (chatFnGetattr demoBodies) [] "" =
      budgetExceededMessage ∧
    (getResponseRun stubSvcAlwaysTool (chatFnGetattr demoBodies) [] "").tool_call_count =
      MAX_TOOL_CALLS_PER_CONVERSATION :=
  c1_budget_termination stubSvcAlwaysTool (chatFnGetattr demoBodies) [] ""
    (fun _ => ⟨_, rfl, by simp, rfl⟩)

/-! ## C3 — tool dispatch and exception conversion -/

/-- C3 (counterexample): the claim asserts a tool name outside the registry is
rejected with an unknown-tool error instead of being dynamically resolved and
executed; but dispatch is `getattr(ChatFn, function_name)`, so the
non-registry class attribute `get_descriptions` *is* resolved and executed —
the appended tool message carries its successful return value, and no
unknown-tool error exists anywhere in the loop. -/
theorem c3_counterexample :
    "get_descriptions" ∉ registryToolNames ∧
    (chatFnGetattr demoBodies "get_descriptions").isSome = true ∧
    runToolCall (chatFnGetattr demoBodies) ⟨"get_descriptions", ""⟩ =
      { role := "tool", content := joinWith ", " registryToolNames,
        tool_calls := [], name := some "get_descriptions" } := by
  set_option maxRecDepth 8000 in decide

/-- C3 (amended): dispatch is dynamic (`getattr`), not registry-gated: a name
that resolves to *any* class attribute — registry tool or not — is executed.
What does hold: every executed tool call yields exactly one tool-role message
tagged with the tool's name; a name that is no attribute at all produces the
caught `AttributeError` converted to the textual
"Error: Tool execution error for …: type object 'ChatbotFunctions' has no
attribute …" result (a generic execution error, not a dedicated unknown-tool
error); any exception raised by a resolved body is likewise converted to a
textual "Error: Tool execution error" tool message; in no case does an
exception escape the per-call handler, so the loop always proceeds and the
caller receives a displayable string. -/
theorem c3_exception_conversion
    (getattrFn : String → Option (String → Except String String))
    (tc : ToolCall) :
    (runToolCall getattrFn tc).role = "tool" ∧
    (runToolCall getattrFn tc).name = some tc.name ∧
    (getattrFn tc.name = none →
      (runToolCall getattrFn tc).content =
        "Error: Tool execution error for " ++ tc.name ++
          ": type object 'ChatbotFunctions' has no attribute '" ++ tc.name ++ "'") ∧
    (∀ f e, getattrFn tc.name = some f → f tc.arguments = Except.error e →
      (runToolCall getattrFn tc).content =
        "Error: Tool execution error for " ++ tc.name ++ ": " ++ e) := by
  rcases hg : getattrFn tc.name with - | f
  · have hrun : runToolCall getattrFn tc =
        { role := "tool",
          content := "Error: Tool execution error for " ++ tc.name ++
            ": type object 'ChatbotFunctions' has no attribute '" ++ tc.name ++ "'",
          tool_calls := [], name := some tc.name } := by
      simp only [runToolCall, hg]
    refine ⟨by rw [hrun], by rw [hrun], fun _ => by rw [hrun],
      fun f e hf hfe => ?_⟩
    exact absurd hf (by simp)
  · cases hr : f tc.arguments with
    | ok r =>
      have hrun : runToolCall getattrFn tc =
          { role := "tool", content := r, tool_calls := [],
            name := some tc.name } := by
        simp only [runToolCall, hg, hr]
      refine ⟨by rw [hrun], by rw [hrun], fun hn => ?_, fun f' e' hf' hr' => ?_⟩
      · exact absurd hn (by simp)
      · obtain rfl : f = f' := by simpa using hf'
        rw [hr] at hr'
        exact absurd hr' (by simp)
    | error e =>
      have hrun : runToolCall getattrFn tc =
          { role := "tool",
            content := "Error: Tool execution error for " ++ tc.name ++ ": " ++ e,
            tool_calls := [], name := some tc.name } := by
        simp only [runToolCall, hg, hr]
      refine ⟨by rw [hrun], by rw [hrun], fun hn => ?_, fun f' e' hf' hr' => ?_⟩
      · exact absurd hn (by simp)
      · obtain rfl : f = f' := by simpa using hf'
        rw [hr] at hr'
        obtain rfl : e = e' := by simpa using hr'
        rw [hrun]

/-- Witness for `c3_exception_conversion`: an unresolvable tool name is
converted to the caught-AttributeError tool message. -/
theorem c3_exception_conversion_witness :
    (runToolCall (chatFnGetattr demoBodies) ⟨"nonexistent_tool", ""⟩).content =
      "Error: Tool execution error for " ++ "nonexistent_tool" ++
        ": type object 'ChatbotFunctions' has no attribute '" ++
        "nonexistent_tool" ++ "'" :=
  (c3_exception_conversion (chatFnGetattr demoBodies)
    ⟨"nonexistent_tool", ""⟩).2.2.1 rfl

/-! ## C4 — system-role ordering of outbound message lists -/

/-- The ordering property the claim asserts of an outbound list: every
system-role message precedes every user-role and assistant-role message. -/
def systemBeforeConversational (l : List Message) : Prop :=
  ∀ i j : Fin l.length, (l.get i).role = "system" →
    ((l.get j).role = "user" ∨ (l.get j).role = "assistant") →
    (i : Nat) < (j : Nat)

instance (l : List Message) : Decidable (systemBeforeConversational l) := by
  unfold systemBeforeConversational
  infer_instance

/-- A completion service that answers a greeting directly, with no tool
calls. -/
def svcPlainReply : List Message → Except String ChatResponse :=
  fun _ => Except.ok
    { content := some "Hello! I am DineMate. How can I help you today?",
      tool_calls := [] }

/-- C4 (counterexample): already the *first* outbound list violates the
claim: `get_response` builds `[SYSTEM_PROMPT (system), history..., advisor
recommendations (system)]` — `inject_advisor_after_user_message` appends a
second system message *after* the user turn, so a system message follows a
user message in a list sent to the completion service. -/
theorem c4_counterexample :
    ¬ ∀ l ∈ (getResponseRun svcPlainReply (chatFnGetattr demoBodies)
        [{ role := "user", content := "hi" }]
        "NO_TOOL_CALLS_NEEDED: greeting").sent,
      systemBeforeConversational l := by
  decide

theorem toolLoop_sent_head (svc : List Message → Except String ChatResponse)
    (getattrFn : String → Option (String → Except String String))
    (m : Message) :
    ∀ gas msgs res response count, msgs.head? = some m →
      ∀ l ∈ (toolLoop svc getattrFn gas msgs res response count).sent,
        l.head? = some m := by
  intro gas
  induction gas with
  | zero =>
    intro msgs res response count hh l hl
    unfold toolLoop at hl
    split at hl
    · simp at hl
    · simp at hl
  | succ gas' ih =>
    intro msgs res response count hh l hl
    have hmsgs' : ∀ extra : List Message, (msgs ++ extra).head? = some m := by
      intro extra
      rw [List.head?_append, hh]
      rfl
    unfold toolLoop at hl
    split at hl
    · simp at hl
    · dsimp only at hl
      split at hl
      · rw [List.mem_singleton] at hl
        subst hl
        exact hmsgs' _
      · split at hl
        · rw [List.mem_singleton] at hl
          subst hl
          exact hmsgs' _
        · dsimp only at hl
          rcases List.mem_cons.mp hl with rfl | hl
          · exact hmsgs' _
          · exact ih _ _ _ _ (hmsgs' _) l hl

/-- C4 (amended): in every outbound message list `get_response` sends to the
completion service, the *first* message is the `SYSTEM_PROMPT` system message,
and conversational history follows it; the advisor recommendations system
message, however, is appended *after* the history (at the end of the list),
so it is not true that every system-role message precedes the conversational
turns. -/
theorem c4_system_prompt_first (svc : List Message → Except String ChatResponse)
    (getattrFn : String → Option (String → Except String String))
    (messages : List Message) (recommendations : String) :
    ∀ l ∈ (getResponseRun svc getattrFn messages recommendations).sent,
      l.head? = some { role := "system", content := SYSTEM_PROMPT } := by
  intro l hl
  have hhead : (initialOutbound messages recommendations).head? =
      some { role := "system", content := SYSTEM_PROMPT } := rfl
  unfold getResponseRun at hl
  dsimp only at hl
  split at hl
  · rw [List.mem_singleton] at hl
    subst hl
    exact hhead
  · split at hl
    · rw [List.mem_singleton] at hl
      subst hl
      exact hhead
    · dsimp only at hl
      rcases List.mem_cons.mp hl with rfl | hl
      · exact hhead
      · exact toolLoop_sent_head svc getattrFn _ _ _ _ _ _ hhead l hl

/-- Witness for `c4_system_prompt_first` at a concrete run. -/
theorem c4_system_prompt_first_witness :
    (initialOutbound [] "advice").head? =
      some { role := "system", content := SYSTEM_PROMPT } :=
  c4_system_prompt_first svcPlainReply (chatFnGetattr demoBodies) [] "advice"
    (initialOutbound [] "advice")
    (by
      rw [show (getResponseRun svcPlainReply (chatFnGetattr demoBodies) []
          "advice").sent = [initialOutbound [] "advice"] from rfl]
      exact List.mem_singleton.mpr rfl)
